import Mathlib

/-!
Verification of the authentication core of the `rust-backend-starter`
repository against its natural-language specification.

The embedding follows the Rust source:
* `src/utils/auth.rs`   — claims, token issue/verify, password hash/verify
* `src/middleware/auth.rs` — the AuthGate interceptor
* `src/handlers/auth.rs` — signup/login/get_me handlers
* `src/handlers/items.rs` — item CRUD handlers
* `src/models/item.rs`  — item data model and payload validation
* `src/config.rs`       — configuration record

External collaborators (the `jsonwebtoken`, `bcrypt`, `uuid` and
`validator` crates) and the repository modules that are declared by
`main.rs` but whose files are not under `src/` (`error.rs`,
`models/user.rs`) are modelled from the specification; each such
definition carries a doc comment saying so.  Wall-clock time
(`Utc::now()`) is passed as an explicit integer parameter, and the
database (a Postgres pool in the source) is modelled as an in-memory
list of rows with the semantics of the literal SQL queries the
handlers issue.
-/

namespace RustAuth

/-- Configuration record, from `src/config.rs` (`Config`).  Only the
fields the authentication core reads are carried: the JWT secret and
the token lifetime in seconds.  `from_env` performs no positivity
check on `jwt_expiration`. -/
structure Config where
  jwt_secret : String
  jwt_expiration : Int
deriving DecidableEq, Repr

/-- Token claims, from `src/utils/auth.rs` (`Claims`): subject (user
id as a string), email, expiry and issued-at timestamps in seconds
since the epoch. -/
structure Claims where
  sub : String
  email : String
  exp : Int
  iat : Int
deriving DecidableEq, Repr

/-- From `src/utils/auth.rs` (`Claims::new`): `iat = now`,
`exp = now + config.jwt_expiration`, subject is the user id rendered
as a string (the model carries user ids as their string rendering).
No validation of `jwt_expiration` is performed. -/
def Claims.new (user_id : String) (email : String) (config : Config) (now : Int) : Claims :=
  { sub := user_id, email := email, exp := now + config.jwt_expiration, iat := now }

/-- Modelled from the spec: one `.`-separated segment of a token
string as handled by the `jsonwebtoken` crate (an external crate, not
under `src/`).  Spec section 6: a segment is the base64url encoding
of the header JSON, of the claims JSON, or of an HMAC-SHA256
signature over the first two segments; any other byte string is a
non-decodable blob.  The encodings are treated symbolically: each
constructor stands for the class of wire strings that decode to its
argument, and equality of segments models byte-for-byte equality of
the canonical encodings. -/
inductive Segment where
  | header (alg : String)
  | payload (c : Claims)
  | mac (h : Segment) (p : Segment) (secret : String)
  | junk (s : String)
deriving DecidableEq, Repr

/-- Modelled from the spec: a token wire string, split at `.` into
its segments (spec section 6: three segments separated by a dot). -/
abbrev TokenWire := List Segment

/-- Modelled from the spec: the failure kinds of `jsonwebtoken`
verification as classified by spec section 4.2: malformed structure,
signature mismatch, expired. -/
inductive JwtError where
  | malformed
  | invalidSignature
  | expired
deriving DecidableEq, Repr

/-- Modelled from the spec: the display rendering of a
`jsonwebtoken::errors::Error`, used by the middleware in
`format!("Invalid token: ...", e)`.  Only the fact that it names the
internal kind matters to the development. -/
def jwtErrorMessage : JwtError → String
  | .malformed => "InvalidToken"
  | .invalidSignature => "InvalidSignature"
  | .expired => "ExpiredSignature"

/-- From `src/utils/auth.rs` (`create_token`): build `Claims::new`
and encode them with `Header::default()` (HS256) and the configured
secret.  Encoding is modelled from the spec wire format (section 6):
header segment, claims segment, and MAC segment over the first two
under the secret.  In the source the only failure mode of `encode`
is an internal serialization fault, which cannot occur for this data;
no ttl validation of any kind is performed and no `ConfigError`
exists in the source. -/
def create_token (user_id : String) (email : String) (config : Config) (now : Int) :
    Except JwtError TokenWire :=
  let claims := Claims.new user_id email config now
  .ok [Segment.header "HS256", Segment.payload claims,
       Segment.mac (Segment.header "HS256") (Segment.payload claims) config.jwt_secret]

/-- From `src/utils/auth.rs` (`verify_token`): delegate to
`jsonwebtoken::decode` with the configured secret and
`Validation::default()`.  The decode algorithm is modelled from the
spec (section 4.2, first match wins): wrong segment count or a
non-decodable header/payload is `malformed`; a signature segment
different from the MAC recomputed over the header and payload
segments under the secret is `invalidSignature`; `now > exp` is
`expired`; otherwise the claims are returned. -/
def verify_token (token : TokenWire) (config : Config) (now : Int) :
    Except JwtError Claims :=
  match token with
  | [Segment.header alg, Segment.payload c, s] =>
      if s = Segment.mac (Segment.header alg) (Segment.payload c) config.jwt_secret then
        if now > c.exp then
          .error JwtError.expired
        else
          .ok c
      else
        .error JwtError.invalidSignature
  | _ => .error JwtError.malformed

/-- Claim C1: issuing a token and verifying it immediately under the
same secret succeeds and returns claims with the issued subject and
email and with `exp - iat` equal to the configured ttl. -/
theorem token_issue_verify_round_trip (u email : String) (config : Config) (now : Int)
    (hpos : 0 < config.jwt_expiration) :
    ∃ tok, create_token u email config now = Except.ok tok ∧
      ∃ c, verify_token tok config now = Except.ok c ∧
        c.sub = u ∧ c.email = email ∧ c.exp - c.iat = config.jwt_expiration := by
  refine ⟨_, rfl, ?_⟩
  refine ⟨Claims.new u email config now, ?_, rfl, rfl, by simp [Claims.new]⟩
  have hnotexp : ¬ (now > (Claims.new u email config now).exp) := by
    simp only [Claims.new]
    omega
  simp [verify_token, hnotexp]

/-- Witness for C1 at a concrete input. -/
theorem token_issue_verify_round_trip_witness :
    (0 : Int) < (3600 : Int) ∧
      ∃ tok, create_token "user-123" "a@b.com" ⟨"secret", 3600⟩ 1000 = Except.ok tok ∧
        ∃ c, verify_token tok ⟨"secret", 3600⟩ 1000 = Except.ok c ∧
          c.sub = "user-123" ∧ c.email = "a@b.com" ∧ c.exp - c.iat = (3600 : Int) :=
  ⟨by decide, token_issue_verify_round_trip "user-123" "a@b.com" ⟨"secret", 3600⟩ 1000 (by decide)⟩

/-- Claim C5 counterexample: `create_token` called with the
non-positive ttl `-1` succeeds with a token whose claims have
`exp = iat - 1`; it does not fail, and no `ConfigError` exists
anywhere in the source. -/
theorem create_token_negative_ttl_succeeds :
    create_token "user-123" "a@b.com" ⟨"secret", -1⟩ 1000 =
      Except.ok [Segment.header "HS256",
        Segment.payload { sub := "user-123", email := "a@b.com", exp := 999, iat := 1000 },
        Segment.mac (Segment.header "HS256")
          (Segment.payload { sub := "user-123", email := "a@b.com", exp := 999, iat := 1000 })
          "secret"] := by
  simp [create_token, Claims.new]

/-- Claim C5 amended: `create_token` performs no ttl validation at
all; for every ttl, non-positive ones included, it succeeds, and the
issued claims satisfy `exp - iat = ttl`. -/
theorem create_token_no_ttl_validation (u email : String) (config : Config) (now : Int) :
    ∃ tok, create_token u email config now = Except.ok tok ∧
      ∃ c, tok = [Segment.header "HS256", Segment.payload c,
              Segment.mac (Segment.header "HS256") (Segment.payload c) config.jwt_secret] ∧
        c.exp - c.iat = config.jwt_expiration :=
  ⟨_, rfl, Claims.new u email config now, rfl, by simp [Claims.new]⟩

/-- Claim C6: classification of `verify_token` outcomes, first match
wins: wrong segment count or a non-decodable header or payload
segment is `malformed`; a well-formed token whose signature segment
differs from the recomputed MAC is `invalidSignature` (for every
verification time, hence even if also expired, and for every
alteration of the signature segment); a correctly signed token with
`now > exp` is `expired`; otherwise the claims are returned.  In
particular a token issued with ttl 1 and verified 2 seconds later is
`expired`. -/
theorem verify_token_failure_classification (config : Config) :
    (∀ (tok : TokenWire) (now : Int), tok.length ≠ 3 →
      verify_token tok config now = Except.error JwtError.malformed) ∧
    (∀ (h p s : Segment) (now : Int),
      ((∀ a, h ≠ Segment.header a) ∨ (∀ c, p ≠ Segment.payload c)) →
      verify_token [h, p, s] config now = Except.error JwtError.malformed) ∧
    (∀ (a : String) (c : Claims) (s : Segment) (now : Int),
      s ≠ Segment.mac (Segment.header a) (Segment.payload c) config.jwt_secret →
      verify_token [Segment.header a, Segment.payload c, s] config now =
        Except.error JwtError.invalidSignature) ∧
    (∀ (a : String) (c : Claims) (now : Int), now > c.exp →
      verify_token [Segment.header a, Segment.payload c,
          Segment.mac (Segment.header a) (Segment.payload c) config.jwt_secret] config now =
        Except.error JwtError.expired) ∧
    (∀ (a : String) (c : Claims) (now : Int), ¬ now > c.exp →
      verify_token [Segment.header a, Segment.payload c,
          Segment.mac (Segment.header a) (Segment.payload c) config.jwt_secret] config now =
        Except.ok c) ∧
    (∀ (u email : String) (now : Int), ∃ tok,
      create_token u email ⟨config.jwt_secret, 1⟩ now = Except.ok tok ∧
      verify_token tok ⟨config.jwt_secret, 1⟩ (now + 2) = Except.error JwtError.expired) := by
  refine ⟨?_, ?_, ?_, ?_, ?_, ?_⟩
  · intro tok now hlen
    match tok with
    | [] => rfl
    | [a] => cases a <;> rfl
    | [a, b] => cases a <;> cases b <;> rfl
    | [a, b, c] => simp at hlen
    | a :: b :: c :: d :: rest => cases a <;> cases b <;> rfl
  · intro h p s now hbad
    cases h with
    | header a =>
        cases p with
        | payload c =>
            exfalso
            rcases hbad with hb | hb
            · exact hb a rfl
            · exact hb c rfl
        | header b => rfl
        | mac x y z => rfl
        | junk t => rfl
    | payload c => cases p <;> rfl
    | mac x y z => cases p <;> rfl
    | junk t => cases p <;> rfl
  · intro a c s now hs
    simp [verify_token, hs]
  · intro a c now hexp
    simp [verify_token, hexp]
  · intro a c now hexp
    simp [verify_token, hexp]
  · intro u email now
    refine ⟨_, rfl, ?_⟩
    have hexp : now + 2 > (Claims.new u email ⟨config.jwt_secret, 1⟩ now).exp := by
      simp only [Claims.new]
      omega
    simp [create_token, verify_token, hexp]

/-- Witness for C6 at concrete inputs: a one-segment token is
malformed, a tampered signature segment is an invalid signature, and
a correctly signed token past its expiry is expired. -/
theorem verify_token_failure_classification_witness :
    verify_token [Segment.junk "x"] ⟨"secret", 5⟩ 0 = Except.error JwtError.malformed ∧
    verify_token [Segment.header "HS256", Segment.payload ⟨"u", "e", 10, 0⟩, Segment.junk "sig"]
        ⟨"secret", 5⟩ 0 = Except.error JwtError.invalidSignature ∧
    verify_token [Segment.header "HS256", Segment.payload ⟨"u", "e", 10, 0⟩,
        Segment.mac (Segment.header "HS256") (Segment.payload ⟨"u", "e", 10, 0⟩) "secret"]
        ⟨"secret", 5⟩ 100 = Except.error JwtError.expired :=
  ⟨(verify_token_failure_classification ⟨"secret", 5⟩).1 [Segment.junk "x"] 0 (by decide),
   (verify_token_failure_classification ⟨"secret", 5⟩).2.2.1 "HS256" ⟨"u", "e", 10, 0⟩
      (Segment.junk "sig") 0 (by decide),
   (verify_token_failure_classification ⟨"secret", 5⟩).2.2.2.1 "HS256" ⟨"u", "e", 10, 0⟩
      100 (by decide)⟩

/-- Modelled from the spec: the error type `AppError` of `error.rs`,
which `main.rs` declares but whose file is not under `src/`.  The
variants are exactly the ones constructed by the source files under
`src/`, matching the spec section 7 taxonomy. -/
inductive AppError where
  | Validation (msg : String)
  | Authentication (msg : String)
  | Unauthorized (msg : String)
  | NotFound (msg : String)
  | BadRequest (msg : String)
  | Internal (msg : String)
deriving DecidableEq, Repr

/-- Modelled from the spec: the value of an `Authorization` request
header as consumed by the gate.  The source partitions header strings
by `strip_prefix("Bearer ")`: a string of the form the literal
`"Bearer "` followed by a token encoding, or any other string (other
schemes such as `Basic`, or garbage). -/
inductive AuthHeaderVal where
  | bearer (tok : TokenWire)
  | nonBearer (raw : String)
deriving DecidableEq, Repr

/-- The request state visible to the gate, from
`src/middleware/auth.rs`: the optional `Authorization` header (absent
or non-UTF-8 headers are `none`, as the source folds `to_str` failure
into absence), the `Config` stored in the request extensions by the
router, and the user-id extension written by the gate for downstream
handlers. -/
structure Request where
  authHeader : Option AuthHeaderVal
  config : Option Config
  userIdExt : Option String
deriving DecidableEq, Repr

/-- From `src/middleware/auth.rs` (`auth_middleware`): reject with
`Unauthorized` when the header is missing or does not start with
`"Bearer "`; otherwise strip the prefix, verify the remainder, and on
failure reject with `Authentication ("Invalid token: " ++ kind)`
without invoking the continuation; on success insert the claims
subject into the request extensions and return the continuation's
response unchanged. -/
def auth_middleware {ρ : Type} (req : Request) (now : Int) (next : Request → ρ) :
    Except AppError ρ :=
  match req.authHeader with
  | none => .error (AppError.Unauthorized "Missing authorization header")
  | some (AuthHeaderVal.nonBearer _) =>
      .error (AppError.Unauthorized "Invalid authorization header format")
  | some (AuthHeaderVal.bearer tok) =>
      match req.config with
      | none => .error (AppError.Internal "Config not found in request extensions")
      | some config =>
          match verify_token tok config now with
          | .error e =>
              .error (AppError.Authentication ("Invalid token: " ++ jwtErrorMessage e))
          | .ok claims => .ok (next { req with userIdExt := some claims.sub })

/-- Claim C2: the gate rejects a missing header and a header without
the `"Bearer "` scheme with `Unauthorized` errors, rejects a token
failing verification with an `Authentication` error — in each of
these cases the result is an error term independent of the downstream
continuation, which is therefore never invoked — and on successful
verification returns the continuation's response on the request with
the claims subject attached, unchanged. -/
theorem auth_middleware_gate_behavior {ρ : Type} (req : Request) (now : Int)
    (next : Request → ρ) :
    (req.authHeader = none →
      auth_middleware req now next =
        Except.error (AppError.Unauthorized "Missing authorization header")) ∧
    (∀ raw, req.authHeader = some (AuthHeaderVal.nonBearer raw) →
      auth_middleware req now next =
        Except.error (AppError.Unauthorized "Invalid authorization header format")) ∧
    (∀ tok config e, req.authHeader = some (AuthHeaderVal.bearer tok) →
      req.config = some config →
      verify_token tok config now = Except.error e →
      auth_middleware req now next =
        Except.error (AppError.Authentication ("Invalid token: " ++ jwtErrorMessage e))) ∧
    (∀ tok config c, req.authHeader = some (AuthHeaderVal.bearer tok) →
      req.config = some config →
      verify_token tok config now = Except.ok c →
      auth_middleware req now next = Except.ok (next { req with userIdExt := some c.sub })) := by
  refine ⟨?_, ?_, ?_, ?_⟩
  · intro h
    simp [auth_middleware, h]
  · intro raw h
    simp [auth_middleware, h]
  · intro tok config e h hc hv
    simp [auth_middleware, h, hc, hv]
  · intro tok config c h hc hv
    simp [auth_middleware, h, hc, hv]

/-- Witness for C2 at concrete inputs: a request with no header is
rejected with the missing-header error, and a request with a `Basic`
scheme header is rejected with the format error. -/
theorem auth_middleware_gate_behavior_witness :
    auth_middleware (ρ := Nat) ⟨none, some ⟨"secret", 5⟩, none⟩ 0 (fun _ => 7) =
      Except.error (AppError.Unauthorized "Missing authorization header") ∧
    auth_middleware (ρ := Nat) ⟨some (AuthHeaderVal.nonBearer "Basic xyz"), some ⟨"secret", 5⟩, none⟩
        0 (fun _ => 7) =
      Except.error (AppError.Unauthorized "Invalid authorization header format") :=
  ⟨(auth_middleware_gate_behavior ⟨none, some ⟨"secret", 5⟩, none⟩ 0 (fun _ => 7)).1 rfl,
   (auth_middleware_gate_behavior ⟨some (AuthHeaderVal.nonBearer "Basic xyz"),
      some ⟨"secret", 5⟩, none⟩ 0 (fun _ => 7)).2.1 "Basic xyz" rfl⟩

/-- Modelled from the spec: the client-facing response body an
`AppError` is rendered to by `error.rs`, which is not under `src/`.
Spec sections 4.3 and 7: every token-verification failure at the gate
is surfaced as the same generic low-information message, never the
internal kind, which is kept for server-side diagnostics only;
internal faults are surfaced as a generic internal-error response. -/
def clientBody : AppError → String
  | .Authentication _ => "invalid or expired token"
  | .Validation m => m
  | .Unauthorized m => m
  | .NotFound m => m
  | .BadRequest m => m
  | .Internal _ => "internal server error"

/-- Claim C3: two requests whose tokens fail verification, for any
two (possibly different) internal failure kinds, are both rejected by
the gate and receive identical client-facing response bodies; the
internal kind never appears in the body. -/
theorem gate_rejection_body_uniform {ρ : Type}
    (req₁ req₂ : Request) (now₁ now₂ : Int) (next₁ next₂ : Request → ρ)
    (tok₁ tok₂ : TokenWire) (config₁ config₂ : Config) (e₁ e₂ : JwtError)
    (h₁ : req₁.authHeader = some (AuthHeaderVal.bearer tok₁))
    (hc₁ : req₁.config = some config₁)
    (hv₁ : verify_token tok₁ config₁ now₁ = Except.error e₁)
    (h₂ : req₂.authHeader = some (AuthHeaderVal.bearer tok₂))
    (hc₂ : req₂.config = some config₂)
    (hv₂ : verify_token tok₂ config₂ now₂ = Except.error e₂) :
    ∃ a₁ a₂, auth_middleware req₁ now₁ next₁ = Except.error a₁ ∧
      auth_middleware req₂ now₂ next₂ = Except.error a₂ ∧
      clientBody a₁ = clientBody a₂ ∧
      clientBody a₁ = "invalid or expired token" := by
  refine ⟨AppError.Authentication ("Invalid token: " ++ jwtErrorMessage e₁),
    AppError.Authentication ("Invalid token: " ++ jwtErrorMessage e₂), ?_, ?_, rfl, rfl⟩
  · simp [auth_middleware, h₁, hc₁, hv₁]
  · simp [auth_middleware, h₂, hc₂, hv₂]

/-- Witness for C3 at concrete inputs: a structurally malformed token
and a token with a tampered signature are rejected with the same
client-facing body. -/
theorem gate_rejection_body_uniform_witness :
    ∃ a₁ a₂,
      auth_middleware (ρ := Nat)
          ⟨some (AuthHeaderVal.bearer [Segment.junk "x"]), some ⟨"secret", 5⟩, none⟩ 0
          (fun _ => 7) = Except.error a₁ ∧
      auth_middleware (ρ := Nat)
          ⟨some (AuthHeaderVal.bearer [Segment.header "HS256", Segment.payload ⟨"u", "e", 10, 0⟩,
              Segment.junk "sig"]), some ⟨"secret", 5⟩, none⟩ 0
          (fun _ => 7) = Except.error a₂ ∧
      clientBody a₁ = clientBody a₂ ∧
      clientBody a₁ = "invalid or expired token" :=
  gate_rejection_body_uniform _ _ 0 0 _ _ [Segment.junk "x"]
    [Segment.header "HS256", Segment.payload ⟨"u", "e", 10, 0⟩, Segment.junk "sig"]
    ⟨"secret", 5⟩ ⟨"secret", 5⟩ JwtError.malformed JwtError.invalidSignature
    rfl rfl rfl rfl rfl rfl

/-- Modelled from the spec: the `bcrypt` crate error type
(`BcryptError`), spec section 7: an internal, non-recoverable
algorithm fault (`HashError`), never produced by normal hashing or
verification. -/
inductive BcryptError where
  | hashError (msg : String)
deriving DecidableEq, Repr

/-- Modelled from the spec: the display rendering of a `BcryptError`,
used by the login handler in `format!("Failed to verify password: ...", e)`. -/
def bcryptErrorMessage : BcryptError → String
  | .hashError m => m

/-- Modelled from the spec: the bcrypt one-way digest over a salt and
a password, treated symbolically: the digest value stands for the
output bytes of the work-factored transform, and verification only
ever recomputes it and compares for equality (spec section 4.1). -/
def bcryptDigest (salt password : String) : String :=
  salt ++ ":" ++ password

/-- Modelled from the spec: split a character list at its first `$`,
returning the parts before and after it; `none` when no `$` occurs.
Used to separate the salt and digest fields of a credential. -/
def splitAtDollar : List Char → Option (List Char × List Char)
  | [] => none
  | c :: cs =>
      if c = '$' then some ([], cs)
      else
        match splitAtDollar cs with
        | none => none
        | some (a, b) => some (c :: a, b)

/-- Modelled from the spec: consume an expected tag from the front of
a character list, `none` when the input does not start with it. -/
def dropTag : List Char → List Char → Option (List Char)
  | [], rest => some rest
  | _ :: _, [] => none
  | t :: ts, c :: cs => if c = t then dropTag ts cs else none

/-- Modelled from the spec: parse a stored credential string into its
salt and digest.  Spec section 3: a credential is an opaque encoding
embedding the algorithm tag, work factor, salt and digest; the model
uses the tag `$2b$12$` followed by the salt, a `$`, and the digest.
A string not of this shape is malformed and fails to parse. -/
def parseCredential (cred : String) : Option (String × String) :=
  match dropTag "$2b$12$".data cred.data with
  | none => none
  | some rest =>
      match splitAtDollar rest with
      | none => none
      | some (saltCs, digestCs) => some (⟨saltCs⟩, ⟨digestCs⟩)

/-- From `src/utils/auth.rs` (`hash_password`): delegate to
`bcrypt::hash(password, DEFAULT_COST)`.  The bcrypt crate is external
to `src/` and is modelled from the spec (section 4.1): a salted,
work-factored, irreversible transform that never fails on normal
input; the salt, drawn from fresh entropy inside the crate, is an
explicit parameter of the model. -/
def hash_password (password : String) (salt : String) : Except BcryptError String :=
  .ok ("$2b$12$" ++ salt ++ "$" ++ bcryptDigest salt password)

/-- From `src/utils/auth.rs` (`verify_password`): delegate to
`bcrypt::verify(password, hash)`.  Modelled from the spec (section
4.1): parse the stored credential, recompute the digest over its salt
and the supplied password, and compare; any mismatch — a malformed
credential included — is a `false` result, not an error; `HashError`
is reserved for internal algorithm faults and is never produced for
a mere mismatch. -/
def verify_password (password : String) (hash : String) : Except BcryptError Bool :=
  match parseCredential hash with
  | none => .ok false
  | some (salt, dg) => .ok (bcryptDigest salt password == dg)

/-- Claim C4: `verify_password` always returns a boolean result —
`false` when the credential is malformed and `false` when a
well-formed credential's digest does not match the recomputation —
and never an error for either case. -/
theorem verify_password_mismatch_is_false_not_error (password cred : String) :
    (∃ b, verify_password password cred = Except.ok b) ∧
    (parseCredential cred = none → verify_password password cred = Except.ok false) ∧
    (∀ salt dg, parseCredential cred = some (salt, dg) → bcryptDigest salt password ≠ dg →
      verify_password password cred = Except.ok false) := by
  refine ⟨?_, ?_, ?_⟩
  · cases h : parseCredential cred with
    | none => exact ⟨false, by simp [verify_password, h]⟩
    | some sd =>
        exact ⟨bcryptDigest sd.1 password == sd.2, by
          obtain ⟨s, d⟩ := sd
          simp [verify_password, h]⟩
  · intro h
    simp [verify_password, h]
  · intro salt dg h hne
    simp [verify_password, h, hne]

/-- Witness for C4 at a concrete input: a malformed credential yields
the boolean `false`, not an error. -/
theorem verify_password_mismatch_is_false_not_error_witness :
    verify_password "pw" "garbage" = Except.ok false :=
  (verify_password_mismatch_is_false_not_error "pw" "garbage").2.1 rfl

theorem dropTag_append (t r : List Char) : dropTag t (t ++ r) = some r := by
  induction t with
  | nil => rfl
  | cons c cs ih => simp [dropTag, ih]

theorem splitAtDollar_append (a b : List Char) (ha : '$' ∉ a) :
    splitAtDollar (a ++ '$' :: b) = some (a, b) := by
  induction a with
  | nil => simp [splitAtDollar]
  | cons c cs ih =>
      simp only [List.mem_cons, not_or] at ha
      simp [splitAtDollar, Ne.symm ha.1, ih ha.2]

theorem parseCredential_of_hash (password salt : String) (hsalt : '$' ∉ salt.data) :
    parseCredential ("$2b$12$" ++ salt ++ "$" ++ bcryptDigest salt password) =
      some (salt, bcryptDigest salt password) := by
  unfold parseCredential
  have h1 : ("$2b$12$" ++ salt ++ "$" ++ bcryptDigest salt password).data
      = "$2b$12$".data ++ (salt.data ++ '$' :: (bcryptDigest salt password).data) := by
    simp [String.data_append]
  rw [h1, dropTag_append]
  simp [splitAtDollar_append _ _ hsalt]

/-- Claim C8: verifying a password against the credential produced by
hashing it (under any salt the crate may have drawn) returns `true`. -/
theorem hash_then_verify_roundtrip (password salt : String) (hsalt : '$' ∉ salt.data) :
    ∃ cred, hash_password password salt = Except.ok cred ∧
      verify_password password cred = Except.ok true := by
  refine ⟨_, rfl, ?_⟩
  simp [verify_password, parseCredential_of_hash password salt hsalt]

/-- Witness for C8 at a concrete input. -/
theorem hash_then_verify_roundtrip_witness :
    ∃ cred, hash_password "hunter2" "abc" = Except.ok cred ∧
      verify_password "hunter2" cred = Except.ok true :=
  hash_then_verify_roundtrip "hunter2" "abc" (by decide)

/-- Modelled from the spec: the `User` row of `models/user.rs`, which
is declared by the source but is not under `src/`; only the fields
the handlers under `src/` read are carried. -/
structure User where
  id : String
  email : String
  username : String
  password_hash : String
deriving DecidableEq, Repr

/-- Modelled from the spec: the `LoginUser` request payload of
`models/user.rs`, not under `src/`: an email and a password. -/
structure LoginUser where
  email : String
  password : String
deriving DecidableEq, Repr

/-- Modelled from the spec: `LoginUser::validate` of `models/user.rs`,
not under `src/`.  Request-shape validation is owned outside this
core (spec section 7), so the model accepts every payload. -/
def validateLoginUser (_ : LoginUser) : Except String Unit :=
  Except.ok ()

/-- From `src/handlers/auth.rs` (`login`): validate the payload,
fetch the user row by email (`SELECT * FROM users WHERE email = $1`,
the database modelled as the list of rows), failing with the generic
authentication error when none exists; verify the password, mapping
an internal bcrypt fault to an `Internal` error and a mismatch to the
same generic authentication error; then issue a token for the user
id and email. -/
def login (db : List User) (payload : LoginUser) (config : Config) (now : Int) :
    Except AppError (TokenWire × User) :=
  match validateLoginUser payload with
  | .error e => .error (AppError.Validation e)
  | .ok () =>
      match db.find? (fun u => u.email == payload.email) with
      | none => .error (AppError.Authentication "Invalid email or password")
      | some user =>
          match verify_password payload.password user.password_hash with
          | .error e =>
              .error (AppError.Internal ("Failed to verify password: " ++ bcryptErrorMessage e))
          | .ok false => .error (AppError.Authentication "Invalid email or password")
          | .ok true =>
              match create_token user.id user.email config now with
              | .error e =>
                  .error (AppError.Internal ("Failed to create token: " ++ jwtErrorMessage e))
              | .ok tok => .ok (tok, user)

/-- Claim C7: a login whose email matches no user and a login whose
email matches a user but whose password fails verification produce
the same error value, the generic `Authentication` failure with
message `Invalid email or password`; the two cases are therefore
indistinguishable to the caller. -/
theorem login_failure_indistinguishable (db : List User) (p : LoginUser)
    (config : Config) (now : Int) :
    (db.find? (fun u => u.email == p.email) = none →
      login db p config now =
        Except.error (AppError.Authentication "Invalid email or password")) ∧
    (∀ user, db.find? (fun u => u.email == p.email) = some user →
      verify_password p.password user.password_hash = Except.ok false →
      login db p config now =
        Except.error (AppError.Authentication "Invalid email or password")) := by
  constructor
  · intro h
    simp [login, validateLoginUser, h]
  · intro user h hv
    simp [login, validateLoginUser, h, hv]

/-- Witness for C7 at concrete inputs: an unknown email and a known
email with a wrong password receive the identical error. -/
theorem login_failure_indistinguishable_witness :
    login [⟨"id1", "a@b.com", "alice", "$2b$12$abc$abc:right"⟩] ⟨"x@y.com", "pw"⟩
        ⟨"secret", 5⟩ 0 =
      Except.error (AppError.Authentication "Invalid email or password") ∧
    login [⟨"id1", "a@b.com", "alice", "$2b$12$abc$abc:right"⟩] ⟨"a@b.com", "wrong"⟩
        ⟨"secret", 5⟩ 0 =
      Except.error (AppError.Authentication "Invalid email or password") :=
  ⟨(login_failure_indistinguishable [⟨"id1", "a@b.com", "alice", "$2b$12$abc$abc:right"⟩]
      ⟨"x@y.com", "pw"⟩ ⟨"secret", 5⟩ 0).1 rfl,
   (login_failure_indistinguishable [⟨"id1", "a@b.com", "alice", "$2b$12$abc$abc:right"⟩]
      ⟨"a@b.com", "wrong"⟩ ⟨"secret", 5⟩ 0).2 ⟨"id1", "a@b.com", "alice", "$2b$12$abc$abc:right"⟩
      rfl rfl⟩

/-- Modelled from the spec: the hex-digit test of the external `uuid`
crate parser. -/
def isHexDigitCh (c : Char) : Bool :=
  ('0' ≤ c && c ≤ '9') || ('a' ≤ c && c ≤ 'f') || ('A' ≤ c && c ≤ 'F')

/-- Modelled from the spec: `str::parse::<Uuid>` of the external
`uuid` crate, as called by every protected handler on the subject
string the gate attached.  Accepts the canonical hyphenated form: 36
characters, hyphens at positions 8, 13, 18 and 23, hex digits
elsewhere.  User ids are carried in the model as their string
rendering, so a successful parse returns the string itself. -/
def parseUuid (s : String) : Option String :=
  let cs := s.data
  if cs.length = 36 &&
      (List.range 36).all (fun i =>
        if i = 8 || i = 13 || i = 18 || i = 23 then cs.getD i ' ' == '-'
        else isHexDigitCh (cs.getD i ' ')) then
    some s
  else
    none

/-- Item row, from `src/models/item.rs` (`Item`); timestamps are
integers (seconds). -/
structure Item where
  id : String
  user_id : String
  title : String
  description : Option String
  status : String
  created_at : Int
  updated_at : Int
deriving DecidableEq, Repr

/-- Creation payload, from `src/models/item.rs` (`CreateItem`). -/
structure CreateItem where
  title : String
  description : Option String
deriving DecidableEq, Repr

/-- Update payload, from `src/models/item.rs` (`UpdateItem`). -/
structure UpdateItem where
  title : Option String
  description : Option String
  status : Option String
deriving DecidableEq, Repr

/-- From `src/models/item.rs`: `CreateItem` validation, title length
between 1 and 255 characters. -/
def validateCreateItem (p : CreateItem) : Bool :=
  decide (1 ≤ p.title.length) && decide (p.title.length ≤ 255)

/-- From `src/models/item.rs`: `UpdateItem` validation, title length
between 1 and 255 characters when a title is supplied. -/
def validateUpdateItem (p : UpdateItem) : Bool :=
  match p.title with
  | none => true
  | some t => decide (1 ≤ t.length) && decide (t.length ≤ 255)

/-- Insertion step of the model of `ORDER BY created_at DESC`. -/
def insertByCreatedDesc (x : Item) : List Item → List Item
  | [] => [x]
  | y :: ys =>
      if x.created_at ≥ y.created_at then x :: y :: ys
      else y :: insertByCreatedDesc x ys

/-- Model of `ORDER BY created_at DESC`: stable sort of the rows by
descending creation time. -/
def sortByCreatedDesc : List Item → List Item
  | [] => []
  | x :: xs => insertByCreatedDesc x (sortByCreatedDesc xs)

theorem mem_insertByCreatedDesc (a x : Item) (l : List Item) :
    a ∈ insertByCreatedDesc x l ↔ a = x ∨ a ∈ l := by
  induction l with
  | nil => simp [insertByCreatedDesc]
  | cons y ys ih =>
      by_cases h : x.created_at ≥ y.created_at
      · simp [insertByCreatedDesc, h]
      · simp [insertByCreatedDesc, h, ih]
        tauto

theorem mem_sortByCreatedDesc (a : Item) (l : List Item) :
    a ∈ sortByCreatedDesc l ↔ a ∈ l := by
  induction l with
  | nil => simp [sortByCreatedDesc]
  | cons x xs ih => simp [sortByCreatedDesc, mem_insertByCreatedDesc, ih]

/-- From `src/handlers/items.rs` (`create_item`): validate the
payload, parse the caller id attached by the gate, and insert a row
owned by the caller (`INSERT INTO items (user_id, title, description)
VALUES ($1, $2, $3) RETURNING *`).  The id, the status column default
and the timestamps are generated by the database and are explicit
parameters of the model.  Returns the handler result together with
the database after the call. -/
def create_item (db : List Item) (userIdStr : String) (p : CreateItem)
    (newId : String) (now : Int) (defStatus : String) :
    Except AppError Item × List Item :=
  if validateCreateItem p then
    match parseUuid userIdStr with
    | none => (.error (AppError.Internal "Invalid user ID format"), db)
    | some u =>
        let it : Item :=
          { id := newId, user_id := u, title := p.title, description := p.description,
            status := defStatus, created_at := now, updated_at := now }
        (.ok it, db ++ [it])
  else
    (.error (AppError.Validation "Title must be between 1 and 255 characters"), db)

/-- From `src/handlers/items.rs` (`get_items`): parse the caller id
and return the caller's rows, `SELECT * FROM items WHERE user_id = $1
ORDER BY created_at DESC`. -/
def get_items (db : List Item) (userIdStr : String) : Except AppError (List Item) :=
  match parseUuid userIdStr with
  | none => .error (AppError.Internal "Invalid user ID format")
  | some u => .ok (sortByCreatedDesc (db.filter (fun it => it.user_id == u)))

/-- From `src/handlers/items.rs` (`get_item`): parse the caller id
and fetch `SELECT * FROM items WHERE id = $1 AND user_id = $2`,
`NotFound` when no row matches both. -/
def get_item (db : List Item) (userIdStr itemId : String) : Except AppError Item :=
  match parseUuid userIdStr with
  | none => .error (AppError.Internal "Invalid user ID format")
  | some u =>
      match db.find? (fun it => it.id == itemId && it.user_id == u) with
      | none => .error (AppError.NotFound "Item not found")
      | some it => .ok it

/-- From `src/models/item.rs` and the `UPDATE` query of
`src/handlers/items.rs`: `COALESCE` keeps the stored value for every
field the payload leaves out. -/
def applyUpdate (p : UpdateItem) (it : Item) : Item :=
  { it with
    title := p.title.getD it.title,
    description := match p.description with
      | some d => some d
      | none => it.description,
    status := p.status.getD it.status }

/-- From `src/handlers/items.rs` (`update_item`): validate the
payload, parse the caller id, check the row exists and belongs to the
caller (`SELECT ... WHERE id = $1 AND user_id = $2`, `NotFound`
otherwise), then update with `COALESCE` semantics under the same
ownership condition and return the updated row. -/
def update_item (db : List Item) (userIdStr itemId : String) (p : UpdateItem) :
    Except AppError Item × List Item :=
  if validateUpdateItem p then
    match parseUuid userIdStr with
    | none => (.error (AppError.Internal "Invalid user ID format"), db)
    | some u =>
        match db.find? (fun it => it.id == itemId && it.user_id == u) with
        | none => (.error (AppError.NotFound "Item not found"), db)
        | some old =>
            let db' := db.map (fun it =>
              if it.id == itemId && it.user_id == u then applyUpdate p it else it)
            (.ok (applyUpdate p old), db')
  else
    (.error (AppError.Validation "Title must be between 1 and 255 characters"), db)

/-- From `src/handlers/items.rs` (`delete_item`): parse the caller
id, run `DELETE FROM items WHERE id = $1 AND user_id = $2`, and
answer `NotFound` when no row was affected. -/
def delete_item (db : List Item) (userIdStr itemId : String) :
    Except AppError Unit × List Item :=
  match parseUuid userIdStr with
  | none => (.error (AppError.Internal "Invalid user ID format"), db)
  | some u =>
      let remaining := db.filter (fun it => !(it.id == itemId && it.user_id == u))
      if db.length - remaining.length = 0 then
        (.error (AppError.NotFound "Item not found"), remaining)
      else
        (.ok (), remaining)

/-- From `src/handlers/auth.rs` (`get_me`): parse the user id string
the gate attached, failing with the internal invalid-format error,
then fetch `SELECT * FROM users WHERE id = $1`, `NotFound` when
absent. -/
def get_me (db : List User) (userIdStr : String) : Except AppError User :=
  match parseUuid userIdStr with
  | none => .error (AppError.Internal "Invalid user ID format")
  | some u =>
      match db.find? (fun usr => usr.id == u) with
      | none => .error (AppError.NotFound "User not found")
      | some usr => .ok usr

theorem ownership_pred_false (db : List Item) (u itemId : String)
    (hforeign : ∀ it ∈ db, it.id = itemId → it.user_id ≠ u)
    (it : Item) (hit : it ∈ db) :
    (it.id == itemId && it.user_id == u) = false := by
  rw [Bool.eq_false_iff]
  intro hcontra
  rw [Bool.and_eq_true, beq_iff_eq, beq_iff_eq] at hcontra
  exact hforeign it hit hcontra.1 hcontra.2

/-- Claim C9: every item operation is scoped to the caller: `get`,
`update` and `delete` on an item id that exists but belongs only to
other users answer `NotFound` and leave the database unchanged,
`list` returns only the caller's rows, and `create` records the
caller as the owner of the inserted row. -/
theorem item_operations_scoped_to_principal
    (db : List Item) (userIdStr u itemId : String)
    (hu : parseUuid userIdStr = some u)
    (_hexists : ∃ it ∈ db, it.id = itemId)
    (hforeign : ∀ it ∈ db, it.id = itemId → it.user_id ≠ u) :
    get_item db userIdStr itemId = Except.error (AppError.NotFound "Item not found") ∧
    (∀ p : UpdateItem, validateUpdateItem p = true →
      update_item db userIdStr itemId p =
        (Except.error (AppError.NotFound "Item not found"), db)) ∧
    delete_item db userIdStr itemId =
      (Except.error (AppError.NotFound "Item not found"), db) ∧
    (∀ r l, get_items db userIdStr = Except.ok l → r ∈ l → r.user_id = u) ∧
    (∀ (p : CreateItem) (newId : String) (now : Int) (defStatus : String),
      validateCreateItem p = true →
      ∃ it, create_item db userIdStr p newId now defStatus = (Except.ok it, db ++ [it]) ∧
        it.user_id = u) := by
  have hnone : db.find? (fun it => it.id == itemId && it.user_id == u) = none := by
    rw [List.find?_eq_none]
    intro it hit
    rw [ownership_pred_false db u itemId hforeign it hit]
    simp
  have hfilter : db.filter (fun it => !(it.id == itemId && it.user_id == u)) = db := by
    rw [List.filter_eq_self]
    intro it hit
    rw [ownership_pred_false db u itemId hforeign it hit]
    rfl
  refine ⟨?_, ?_, ?_, ?_, ?_⟩
  · simp [get_item, hu, hnone]
  · intro p hp
    simp [update_item, hp, hu, hnone]
  · simp only [delete_item, hu]
    rw [hfilter]
    simp
  · intro r l hl hr
    simp only [get_items, hu] at hl
    cases hl
    rw [mem_sortByCreatedDesc, List.mem_filter] at hr
    exact beq_iff_eq.mp hr.2
  · intro p newId now defStatus hp
    refine ⟨{ id := newId, user_id := u, title := p.title, description := p.description,
              status := defStatus, created_at := now, updated_at := now }, ?_, rfl⟩
    simp [create_item, hp, hu]

/-- Witness for C9 at a concrete input: the caller owns nothing, the
only item with the requested id belongs to another user. -/
theorem item_operations_scoped_to_principal_witness :
    get_item
        [{ id := "item1", user_id := "11111111-1111-1111-1111-111111111111",
           title := "t", description := none, status := "active",
           created_at := 0, updated_at := 0 }]
        "00000000-0000-0000-0000-000000000000" "item1" =
      Except.error (AppError.NotFound "Item not found") ∧
    delete_item
        [{ id := "item1", user_id := "11111111-1111-1111-1111-111111111111",
           title := "t", description := none, status := "active",
           created_at := 0, updated_at := 0 }]
        "00000000-0000-0000-0000-000000000000" "item1" =
      (Except.error (AppError.NotFound "Item not found"),
        [{ id := "item1", user_id := "11111111-1111-1111-1111-111111111111",
           title := "t", description := none, status := "active",
           created_at := 0, updated_at := 0 }]) :=
  ⟨(item_operations_scoped_to_principal
      [{ id := "item1", user_id := "11111111-1111-1111-1111-111111111111",
         title := "t", description := none, status := "active",
         created_at := 0, updated_at := 0 }]
      "00000000-0000-0000-0000-000000000000" "00000000-0000-0000-0000-000000000000" "item1"
      (by decide) (by decide) (by decide)).1,
   (item_operations_scoped_to_principal
      [{ id := "item1", user_id := "11111111-1111-1111-1111-111111111111",
         title := "t", description := none, status := "active",
         created_at := 0, updated_at := 0 }]
      "00000000-0000-0000-0000-000000000000" "00000000-0000-0000-0000-000000000000" "item1"
      (by decide) (by decide) (by decide)).2.2.1⟩

/-- Claim C10: a correctly signed, unexpired token whose subject is
not a parseable UUID string passes the gate, which attaches the
subject unexamined, and every protected handler then rejects the
request with the internal invalid-user-id error rather than an
authorization error. -/
theorem unparseable_subject_passes_gate_but_fails_handlers {ρ : Type}
    (sub email : String) (config : Config) (iat exp now : Int)
    (next : Request → ρ) (req : Request)
    (hsub : parseUuid sub = none)
    (hexp : ¬ now > exp)
    (hreq : req.authHeader = some (AuthHeaderVal.bearer
      [Segment.header "HS256", Segment.payload ⟨sub, email, exp, iat⟩,
       Segment.mac (Segment.header "HS256") (Segment.payload ⟨sub, email, exp, iat⟩)
         config.jwt_secret]))
    (hcfg : req.config = some config) :
    auth_middleware req now next = Except.ok (next { req with userIdExt := some sub }) ∧
    (∀ udb : List User,
      get_me udb sub = Except.error (AppError.Internal "Invalid user ID format")) ∧
    (∀ (db : List Item) (p : CreateItem) (newId : String) (t : Int) (st : String),
      validateCreateItem p = true →
      create_item db sub p newId t st =
        (Except.error (AppError.Internal "Invalid user ID format"), db)) ∧
    (∀ db : List Item,
      get_items db sub = Except.error (AppError.Internal "Invalid user ID format")) ∧
    (∀ (db : List Item) (itemId : String),
      get_item db sub itemId = Except.error (AppError.Internal "Invalid user ID format")) ∧
    (∀ (db : List Item) (itemId : String) (p : UpdateItem), validateUpdateItem p = true →
      update_item db sub itemId p =
        (Except.error (AppError.Internal "Invalid user ID format"), db)) ∧
    (∀ (db : List Item) (itemId : String),
      delete_item db sub itemId =
        (Except.error (AppError.Internal "Invalid user ID format"), db)) := by
  refine ⟨?_, ?_, ?_, ?_, ?_, ?_, ?_⟩
  · simp [auth_middleware, hreq, hcfg, verify_token, hexp]
  · intro udb
    simp [get_me, hsub]
  · intro db p newId t st hp
    simp [create_item, hp, hsub]
  · intro db
    simp [get_items, hsub]
  · intro db itemId
    simp [get_item, hsub]
  · intro db itemId p hp
    simp [update_item, hp, hsub]
  · intro db itemId
    simp [delete_item, hsub]

/-- Witness for C10 at a concrete input: the subject `not-a-uuid`
passes the gate and is rejected by `get_me` with the internal
invalid-format error. -/
theorem unparseable_subject_passes_gate_but_fails_handlers_witness :
    auth_middleware (ρ := Nat)
        ⟨some (AuthHeaderVal.bearer
          [Segment.header "HS256", Segment.payload ⟨"not-a-uuid", "e", 10, 0⟩,
           Segment.mac (Segment.header "HS256") (Segment.payload ⟨"not-a-uuid", "e", 10, 0⟩)
             "secret"]), some ⟨"secret", 5⟩, none⟩ 0 (fun _ => 7) =
      Except.ok 7 ∧
    get_me [] "not-a-uuid" = Except.error (AppError.Internal "Invalid user ID format") :=
  ⟨(unparseable_subject_passes_gate_but_fails_handlers (ρ := Nat) "not-a-uuid" "e"
      ⟨"secret", 5⟩ 0 10 0 (fun _ => 7)
      ⟨some (AuthHeaderVal.bearer
        [Segment.header "HS256", Segment.payload ⟨"not-a-uuid", "e", 10, 0⟩,
         Segment.mac (Segment.header "HS256") (Segment.payload ⟨"not-a-uuid", "e", 10, 0⟩)
           "secret"]), some ⟨"secret", 5⟩, none⟩
      (by decide) (by decide) rfl rfl).1,
   (unparseable_subject_passes_gate_but_fails_handlers (ρ := Nat) "not-a-uuid" "e"
      ⟨"secret", 5⟩ 0 10 0 (fun _ => 7)
      ⟨some (AuthHeaderVal.bearer
        [Segment.header "HS256", Segment.payload ⟨"not-a-uuid", "e", 10, 0⟩,
         Segment.mac (Segment.header "HS256") (Segment.payload ⟨"not-a-uuid", "e", 10, 0⟩)
           "secret"]), some ⟨"secret", 5⟩, none⟩
      (by decide) (by decide) rfl rfl).2.1 []⟩

end RustAuth
